import Mathlib

/-!
Shallow embedding of the `low_level_papi` package: the error-translation
layer (`exceptions.py`), the Python-level wrappers of `core.py`, and the
embedded native counter subsystem (the `papi_impl.c` source generated by
`papi_build.py`).  Machine integers are modelled as `Int`; the native
time/counter sources are opaque oracles passed in explicitly; a raised
Python exception is the `Except.error` branch.
-/

deriving instance DecidableEq for Except

namespace LowLevelPapi

/-- Modelled from the spec: `PAPI_OK` from the `papi.h` header the build
script reads from disk; the header itself is not part of the sources.  The
values of all status constants follow the standard PAPI header; the
development relies only on success being `0` and the 26 failure codes being
pairwise-distinct negatives. -/
def PAPI_OK : Int := 0

/-- Modelled from the spec: `PAPI_EINVAL` from the missing `papi.h`. -/
def PAPI_EINVAL : Int := -1

/-- Modelled from the spec: `PAPI_ENOMEM` from the missing `papi.h`. -/
def PAPI_ENOMEM : Int := -2

/-- Modelled from the spec: `PAPI_ESYS` from the missing `papi.h`. -/
def PAPI_ESYS : Int := -3

/-- Modelled from the spec: `PAPI_ECMP` from the missing `papi.h`. -/
def PAPI_ECMP : Int := -4

/-- Modelled from the spec: `PAPI_ECLOST` from the missing `papi.h`. -/
def PAPI_ECLOST : Int := -5

/-- Modelled from the spec: `PAPI_EBUG` from the missing `papi.h`. -/
def PAPI_EBUG : Int := -6

/-- Modelled from the spec: `PAPI_ENOEVNT` from the missing `papi.h`. -/
def PAPI_ENOEVNT : Int := -7

/-- Modelled from the spec: `PAPI_ECNFLCT` from the missing `papi.h`. -/
def PAPI_ECNFLCT : Int := -8

/-- Modelled from the spec: `PAPI_ENOTRUN` from the missing `papi.h`. -/
def PAPI_ENOTRUN : Int := -9

/-- Modelled from the spec: `PAPI_EISRUN` from the missing `papi.h`. -/
def PAPI_EISRUN : Int := -10

/-- Modelled from the spec: `PAPI_ENOEVST` from the missing `papi.h`. -/
def PAPI_ENOEVST : Int := -11

/-- Modelled from the spec: `PAPI_ENOTPRESET` from the missing `papi.h`. -/
def PAPI_ENOTPRESET : Int := -12

/-- Modelled from the spec: `PAPI_ENOCNTR` from the missing `papi.h`. -/
def PAPI_ENOCNTR : Int := -13

/-- Modelled from the spec: `PAPI_EMISC` from the missing `papi.h`. -/
def PAPI_EMISC : Int := -14

/-- Modelled from the spec: `PAPI_EPERM` from the missing `papi.h`. -/
def PAPI_EPERM : Int := -15

/-- Modelled from the spec: `PAPI_ENOINIT` from the missing `papi.h`. -/
def PAPI_ENOINIT : Int := -16

/-- Modelled from the spec: `PAPI_ENOCMP` from the missing `papi.h`. -/
def PAPI_ENOCMP : Int := -17

/-- Modelled from the spec: `PAPI_ENOSUPP` from the missing `papi.h`. -/
def PAPI_ENOSUPP : Int := -18

/-- Modelled from the spec: `PAPI_ENOIMPL` from the missing `papi.h`. -/
def PAPI_ENOIMPL : Int := -19

/-- Modelled from the spec: `PAPI_EBUF` from the missing `papi.h`. -/
def PAPI_EBUF : Int := -20

/-- Modelled from the spec: `PAPI_EINVAL_DOM` from the missing `papi.h`. -/
def PAPI_EINVAL_DOM : Int := -21

/-- Modelled from the spec: `PAPI_EATTR` from the missing `papi.h`. -/
def PAPI_EATTR : Int := -22

/-- Modelled from the spec: `PAPI_ECOUNT` from the missing `papi.h`. -/
def PAPI_ECOUNT : Int := -23

/-- Modelled from the spec: `PAPI_ECOMBO` from the missing `papi.h`. -/
def PAPI_ECOMBO : Int := -24

/-- Modelled from the spec: `PAPI_ECMP_DISABLED` from the missing `papi.h`. -/
def PAPI_ECMP_DISABLED : Int := -25

/-- Modelled from the spec: `PAPI_EDELAY_INIT` from the missing `papi.h`. -/
def PAPI_EDELAY_INIT : Int := -26

/-- Modelled from the spec: the preset code `PAPI_TOT_CYC` (total cycles)
from the missing `papi.h`. -/
def PAPI_TOT_CYC : Int := 0x8000003B

/-- Modelled from the spec: the preset code `PAPI_TOT_INS` (total
instructions) from the missing `papi.h`. -/
def PAPI_TOT_INS : Int := 0x80000032

/-- `MAX_EVENTS` of `papi_impl.c`. -/
def MAX_EVENTS : Nat := 10

/-- `MAX_EVENT_SETS` of `papi_impl.c`. -/
def MAX_EVENT_SETS : Nat := 32

/-- The closed taxonomy of classified error kinds: one constructor per
`PapiError` subclass of `exceptions.py`, plus `base` for the generic
`PapiError` class used when a status code has no entry in `ERROR_MAP`. -/
inductive PapiKind where
  | base
  | invalidValue
  | noMemory
  | systemError
  | componentError
  | countersLost
  | internalBug
  | noSuchEvent
  | resourceConflict
  | notRunning
  | alreadyRunning
  | noSuchEventSet
  | notAPreset
  | noCounterHardware
  | miscellaneous
  | permissionDenied
  | notInitialized
  | noSuchComponent
  | notSupported
  | notImplemented
  | bufferTooSmall
  | invalidDomain
  | invalidAttribute
  | tooManyItems
  | invalidCombination
  | componentDisabled
  | delayedInitFailure
deriving DecidableEq

/-- `ERROR_MAP` of `exceptions.py`: native status code to exception class,
in source order. -/
def ERROR_MAP : List (Int × PapiKind) :=
  [(PAPI_EINVAL, PapiKind.invalidValue),
   (PAPI_ENOMEM, PapiKind.noMemory),
   (PAPI_ESYS, PapiKind.systemError),
   (PAPI_ECMP, PapiKind.componentError),
   (PAPI_ECLOST, PapiKind.countersLost),
   (PAPI_EBUG, PapiKind.internalBug),
   (PAPI_ENOEVNT, PapiKind.noSuchEvent),
   (PAPI_ECNFLCT, PapiKind.resourceConflict),
   (PAPI_ENOTRUN, PapiKind.notRunning),
   (PAPI_EISRUN, PapiKind.alreadyRunning),
   (PAPI_ENOEVST, PapiKind.noSuchEventSet),
   (PAPI_ENOTPRESET, PapiKind.notAPreset),
   (PAPI_ENOCNTR, PapiKind.noCounterHardware),
   (PAPI_EMISC, PapiKind.miscellaneous),
   (PAPI_EPERM, PapiKind.permissionDenied),
   (PAPI_ENOINIT, PapiKind.notInitialized),
   (PAPI_ENOCMP, PapiKind.noSuchComponent),
   (PAPI_ENOSUPP, PapiKind.notSupported),
   (PAPI_ENOIMPL, PapiKind.notImplemented),
   (PAPI_EBUF, PapiKind.bufferTooSmall),
   (PAPI_EINVAL_DOM, PapiKind.invalidDomain),
   (PAPI_EATTR, PapiKind.invalidAttribute),
   (PAPI_ECOUNT, PapiKind.tooManyItems),
   (PAPI_ECOMBO, PapiKind.invalidCombination),
   (PAPI_ECMP_DISABLED, PapiKind.componentDisabled),
   (PAPI_EDELAY_INIT, PapiKind.delayedInitFailure)]

/-- `PAPI_strerror` of `papi_impl.c`: a specific message for the ten codes
of the `switch`, otherwise a formatted unknown-code message.  The C
function never returns `NULL`, hence the unconditional `some`. -/
def PAPI_strerror (errorCode : Int) : Option String :=
  some
    (if errorCode = PAPI_OK then "No error"
     else if errorCode = PAPI_EINVAL then "Invalid argument"
     else if errorCode = PAPI_ENOMEM then "Insufficient memory"
     else if errorCode = PAPI_ESYS then "A System/C library call failed"
     else if errorCode = PAPI_ECMP then "Not supported by component"
     else if errorCode = PAPI_ENOINIT then "PAPI hasn\x27t been initialized yet"
     else if errorCode = PAPI_ENOEVNT then "Event does not exist"
     else if errorCode = PAPI_ECNFLCT then
       "Event cannot be counted due to counter resource limitations"
     else if errorCode = PAPI_ENOTRUN then "EventSet is not started"
     else if errorCode = PAPI_EISRUN then "EventSet is currently running"
     else "Unknown error code: " ++ toString errorCode)

/-- A raised `PapiError`: the exception class (kind), the original status
code, and the message that `PapiError.__init__` builds by decoding the
native `PAPI_strerror` bytes. -/
structure PapiExc where
  kind : PapiKind
  code : Int
  message : String
deriving DecidableEq

/-- The `ERROR_MAP.get(rcode, PapiError)` step of `papi_error`: unmapped
codes fall back to the generic base class. -/
def errorKind (c : Int) : PapiKind :=
  (ERROR_MAP.lookup c).getD PapiKind.base

/-- Raising `error_class(rcode)`: `PapiError.__init__` stores the code and
decodes the `PAPI_strerror` message.  The `.getD ""` default is unreachable
because `PAPI_strerror` never returns `NULL`. -/
def mkError (c : Int) : PapiExc :=
  { kind := errorKind c, code := c, message := (PAPI_strerror c).getD "" }

/-- What a wrapped call hands back on success: the unwrapped result when
the raw function produced one, otherwise the non-negative status code
itself (`return rcode`). -/
inductive WrapResult (α : Type) where
  | value : α → WrapResult α
  | code : Int → WrapResult α
deriving DecidableEq

/-- The `papi_error` decorator of `exceptions.py`, applied to the raw
`(rcode, result)` pair that every wrapped function of `core.py` returns. -/
def papi_error {α : Type} (ret : Int × Option α) : Except PapiExc (WrapResult α) :=
  if ret.1 < 0 then Except.error (mkError ret.1)
  else
    match ret.2 with
    | some v => Except.ok (WrapResult.value v)
    | none => Except.ok (WrapResult.code ret.1)

/-- `strerror` of `core.py`: decode the native message, or format the code
when the native pointer is `NULL`. -/
def strerror (errcode : Int) : String :=
  match PAPI_strerror errcode with
  | none => "Unknown error: " ++ toString errcode
  | some m => m

/-- The `EventSet` slot of `papi_impl.c`: `id`, the live prefix of the
`events` array (the C tracks `num_events`; here the list length is that
count), the `start_values` array (reads beyond the written prefix see the
`memset` zero via `getD _ 0`), and the `running` flag. -/
structure CEventSet where
  id : Int
  events : List Int
  start_values : List Int
  running : Bool
deriving DecidableEq, Inhabited

/-- The global state of `papi_impl.c`: `papi_initialized` and the
`event_sets` array of `MAX_EVENT_SETS` slots. -/
structure PapiState where
  initialized : Bool
  sets : List CEventSet
deriving DecidableEq

/-- Reading `event_sets[es]`. -/
def getSet (st : PapiState) (es : Int) : CEventSet :=
  st.sets.getD es.toNat default

/-- Writing `event_sets[es]`. -/
def setSet (st : PapiState) (es : Int) (s : CEventSet) : PapiState :=
  { st with sets := st.sets.set es.toNat s }

/-- The per-slot counter sample of `papi_impl.c`: `get_cycles()` for
`PAPI_TOT_CYC` (and, by its default branch, for unknown events),
`get_instructions()` for `PAPI_TOT_INS`.  `cyc` and `ins` are the opaque
time-dependent sources, indexed by the slot being sampled. -/
def sampleEvent (cyc ins : Nat → Int) (i : Nat) (event : Int) : Int :=
  if event = PAPI_TOT_CYC then cyc i
  else if event = PAPI_TOT_INS then ins i
  else cyc i

/-- `PAPI_num_events` of `papi_impl.c`. -/
def PAPI_num_events (st : PapiState) (es : Int) : Int :=
  if st.initialized = false then PAPI_ENOINIT
  else if es ≤ 0 ∨ (MAX_EVENT_SETS : Int) ≤ es then PAPI_EINVAL
  else if (getSet st es).id = 0 then PAPI_EINVAL
  else ((getSet st es).events.length : Int)

/-- `PAPI_add_event` of `papi_impl.c`. -/
def PAPI_add_event (st : PapiState) (es ev : Int) : Int × PapiState :=
  if st.initialized = false then (PAPI_ENOINIT, st)
  else if es ≤ 0 ∨ (MAX_EVENT_SETS : Int) ≤ es then (PAPI_EINVAL, st)
  else if (getSet st es).id = 0 then (PAPI_EINVAL, st)
  else if MAX_EVENTS ≤ (getSet st es).events.length then (PAPI_ECNFLCT, st)
  else
    (PAPI_OK,
     setSet st es { getSet st es with events := (getSet st es).events ++ [ev] })

/-- `PAPI_start` of `papi_impl.c`: set `running` and record a start value
for each member slot (stale tail entries of the array are untouched). -/
def PAPI_start (st : PapiState) (es : Int) (cyc ins : Nat → Int) :
    Int × PapiState :=
  if st.initialized = false then (PAPI_ENOINIT, st)
  else if es ≤ 0 ∨ (MAX_EVENT_SETS : Int) ≤ es then (PAPI_EINVAL, st)
  else if (getSet st es).id = 0 then (PAPI_EINVAL, st)
  else
    let s := getSet st es
    (PAPI_OK,
     setSet st es
       { s with
         running := true
         start_values :=
           (List.range s.events.length).map
             (fun i => sampleEvent cyc ins i (s.events.getD i 0))
           ++ s.start_values.drop s.events.length })

/-- `PAPI_read` of `papi_impl.c`: per member slot, the current counter
sample minus the recorded start value.  The C body writes only the caller
buffer, no global, hence the returned state is the input state. -/
def PAPI_read (st : PapiState) (es : Int) (cyc ins : Nat → Int) :
    Int × List Int × PapiState :=
  if st.initialized = false then (PAPI_ENOINIT, [], st)
  else if es ≤ 0 ∨ (MAX_EVENT_SETS : Int) ≤ es then (PAPI_EINVAL, [], st)
  else if (getSet st es).id = 0 then (PAPI_EINVAL, [], st)
  else if (getSet st es).running = false then (PAPI_ENOTRUN, [], st)
  else
    (PAPI_OK,
     (List.range (getSet st es).events.length).map
       (fun i =>
         sampleEvent cyc ins i ((getSet st es).events.getD i 0)
           - (getSet st es).start_values.getD i 0),
     st)

/-- `PAPI_stop` of `papi_impl.c`: a `PAPI_read`, then clear `running`. -/
def PAPI_stop (st : PapiState) (es : Int) (cyc ins : Nat → Int) :
    Int × List Int × PapiState :=
  let r := PAPI_read st es cyc ins
  if r.1 ≠ PAPI_OK then r
  else
    (PAPI_OK, r.2.1,
     setSet r.2.2 es { getSet r.2.2 es with running := false })

/-- `PAPI_reset` of `papi_impl.c`: re-record the start values, leaving the
run state alone. -/
def PAPI_reset (st : PapiState) (es : Int) (cyc ins : Nat → Int) :
    Int × PapiState :=
  if st.initialized = false then (PAPI_ENOINIT, st)
  else if es ≤ 0 ∨ (MAX_EVENT_SETS : Int) ≤ es then (PAPI_EINVAL, st)
  else if (getSet st es).id = 0 then (PAPI_EINVAL, st)
  else
    let s := getSet st es
    (PAPI_OK,
     setSet st es
       { s with
         start_values :=
           (List.range s.events.length).map
             (fun i => sampleEvent cyc ins i (s.events.getD i 0))
           ++ s.start_values.drop s.events.length })

/-- `PAPI_cleanup_eventset` of `papi_impl.c`: clear the member count while
stopped. -/
def PAPI_cleanup_eventset (st : PapiState) (es : Int) : Int × PapiState :=
  if st.initialized = false then (PAPI_ENOINIT, st)
  else if es ≤ 0 ∨ (MAX_EVENT_SETS : Int) ≤ es then (PAPI_EINVAL, st)
  else if (getSet st es).id = 0 then (PAPI_EINVAL, st)
  else if (getSet st es).running then (PAPI_EISRUN, st)
  else (PAPI_OK, setSet st es { getSet st es with events := [] })

/-- `PAPI_destroy_eventset` of `papi_impl.c`: free the slot while stopped;
the handle behind the pointer is overwritten with `PAPI_NULL = -1` (the
second component; the Python caller passes a copy and discards it). -/
def PAPI_destroy_eventset (st : PapiState) (es : Int) :
    Int × Int × PapiState :=
  if st.initialized = false then (PAPI_ENOINIT, es, st)
  else if es ≤ 0 ∨ (MAX_EVENT_SETS : Int) ≤ es then (PAPI_EINVAL, es, st)
  else if (getSet st es).id = 0 then (PAPI_EINVAL, es, st)
  else if (getSet st es).running then (PAPI_EISRUN, es, st)
  else (PAPI_OK, -1, setSet st es { getSet st es with id := 0 })

/-- Modelled from the spec: `PAPI_list_events`, declared at the boundary
(`eventSetListEvents(handle, outCodes[], inout count) -> status`) but not
implemented in `papi_impl.c`.  Per the spec, on success it fills the output
buffer with the member codes in insertion order; the buffer holds `number`
entries. -/
def PAPI_list_events (st : PapiState) (es : Int) (number : Nat) :
    Int × List Int :=
  if st.initialized = false then (PAPI_ENOINIT, [])
  else if es ≤ 0 ∨ (MAX_EVENT_SETS : Int) ≤ es then (PAPI_EINVAL, [])
  else if (getSet st es).id = 0 then (PAPI_EINVAL, [])
  else (PAPI_OK, (getSet st es).events.take number)

/-- Modelled from the spec: `PAPI_add_events`, declared at the boundary but
not implemented in `papi_impl.c`.  The batch behaves as one native call
with the contract of repeated `addEvent`: appended in order, a capacity
conflict fails the whole batch. -/
def PAPI_add_events (st : PapiState) (es : Int) (codes : List Int) :
    Int × PapiState :=
  if st.initialized = false then (PAPI_ENOINIT, st)
  else if es ≤ 0 ∨ (MAX_EVENT_SETS : Int) ≤ es then (PAPI_EINVAL, st)
  else if (getSet st es).id = 0 then (PAPI_EINVAL, st)
  else if MAX_EVENTS < (getSet st es).events.length + codes.length then
    (PAPI_ECNFLCT, st)
  else
    (PAPI_OK,
     setSet st es { getSet st es with events := (getSet st es).events ++ codes })

/-- Modelled from the spec: `PAPI_remove_event`, declared at the boundary
but not implemented in `papi_impl.c`.  Removes the code by identity,
preserving the relative order of the remaining members; an absent code is
`NoSuchEvent`. -/
def PAPI_remove_event (st : PapiState) (es ev : Int) : Int × PapiState :=
  if st.initialized = false then (PAPI_ENOINIT, st)
  else if es ≤ 0 ∨ (MAX_EVENT_SETS : Int) ≤ es then (PAPI_EINVAL, st)
  else if (getSet st es).id = 0 then (PAPI_EINVAL, st)
  else if ev ∈ (getSet st es).events then
    (PAPI_OK, setSet st es { getSet st es with events := (getSet st es).events.erase ev })
  else (PAPI_ENOEVNT, st)

/-- Modelled from the spec: `PAPI_remove_events`, declared at the boundary
but not implemented in `papi_impl.c`; sequential removal, stopping at the
first failure. -/
def PAPI_remove_events (st : PapiState) (es : Int) (codes : List Int) :
    Int × PapiState :=
  match codes with
  | [] => (PAPI_OK, st)
  | c :: rest =>
    let r := PAPI_remove_event st es c
    if r.1 < 0 then r else PAPI_remove_events r.2 es rest

/-- Modelled from the spec: the preset table of the subsystem.  The
embedded component reports exactly two preset events (`num_preset_events =
2`, total cycles and total instructions); name resolution is bidirectional
over this table. -/
def presetEvents : List (Int × String) :=
  [(PAPI_TOT_CYC, "PAPI_TOT_CYC"), (PAPI_TOT_INS, "PAPI_TOT_INS")]

/-- Modelled from the spec: `PAPI_event_code_to_name`
(`eventCodeToName(code) -> (status, name)`), not implemented in
`papi_impl.c`: the symbolic name of a known preset code, `NoSuchEvent`
otherwise. -/
def PAPI_event_code_to_name (eventCode : Int) : Int × Option String :=
  match presetEvents.lookup eventCode with
  | some n => (PAPI_OK, some n)
  | none => (PAPI_ENOEVNT, none)

/-- Modelled from the spec: `PAPI_event_name_to_code`
(`eventNameToCode(name) -> (status, code)`), not implemented in
`papi_impl.c`: the reverse lookup over the same preset table. -/
def PAPI_event_name_to_code (eventName : String) : Int × Option Int :=
  match presetEvents.find? (fun p => p.2 = eventName) with
  | some p => (PAPI_OK, some p.1)
  | none => (PAPI_ENOEVNT, none)

/-- `add_event` of `core.py`. -/
def add_event (st : PapiState) (es ev : Int) :
    Except PapiExc (WrapResult Unit) × PapiState :=
  let r := PAPI_add_event st es ev
  (papi_error (r.1, (none : Option Unit)), r.2)

/-- `add_events` of `core.py`. -/
def add_events (st : PapiState) (es : Int) (codes : List Int) :
    Except PapiExc (WrapResult Unit) × PapiState :=
  let r := PAPI_add_events st es codes
  (papi_error (r.1, (none : Option Unit)), r.2)

/-- `remove_event` of `core.py`. -/
def remove_event (st : PapiState) (es ev : Int) :
    Except PapiExc (WrapResult Unit) × PapiState :=
  let r := PAPI_remove_event st es ev
  (papi_error (r.1, (none : Option Unit)), r.2)

/-- `remove_events` of `core.py`. -/
def remove_events (st : PapiState) (es : Int) (codes : List Int) :
    Except PapiExc (WrapResult Unit) × PapiState :=
  let r := PAPI_remove_events st es codes
  (papi_error (r.1, (none : Option Unit)), r.2)

/-- `start` of `core.py`. -/
def start (st : PapiState) (es : Int) (cyc ins : Nat → Int) :
    Except PapiExc (WrapResult Unit) × PapiState :=
  let r := PAPI_start st es cyc ins
  (papi_error (r.1, (none : Option Unit)), r.2)

/-- `reset` of `core.py`. -/
def reset (st : PapiState) (es : Int) (cyc ins : Nat → Int) :
    Except PapiExc (WrapResult Unit) × PapiState :=
  let r := PAPI_reset st es cyc ins
  (papi_error (r.1, (none : Option Unit)), r.2)

/-- `cleanup_eventset` of `core.py`. -/
def cleanup_eventset (st : PapiState) (es : Int) :
    Except PapiExc (WrapResult Unit) × PapiState :=
  let r := PAPI_cleanup_eventset st es
  (papi_error (r.1, (none : Option Unit)), r.2)

/-- `destroy_eventset` of `core.py`: the native call gets a pointer to a
local copy of the handle, so the overwritten handle value is discarded. -/
def destroy_eventset (st : PapiState) (es : Int) :
    Except PapiExc (WrapResult Unit) × PapiState :=
  let r := PAPI_destroy_eventset st es
  (papi_error (r.1, (none : Option Unit)), r.2.2)

/-- `num_events` of `core.py`: the raw pair is `(rcode, rcode)`. -/
def num_events (st : PapiState) (es : Int) :
    Except PapiExc (WrapResult Int) :=
  let rcode := PAPI_num_events st es
  papi_error (rcode, some rcode)

/-- `list_events` of `core.py`: query the count, allocate a buffer of that
size, list into it, and unpack `number` entries on success; a failed count
or listing yields `(rcode, [])` for the decorator. -/
def list_events (st : PapiState) (es : Int) :
    Except PapiExc (WrapResult (List Int)) :=
  let rcode := PAPI_num_events st es
  if rcode < 0 then papi_error (rcode, some ([] : List Int))
  else
    let number := rcode.toNat
    let r := PAPI_list_events st es number
    if r.1 = 0 then
      papi_error (r.1, some ((List.range number).map (fun i => r.2.getD i 0)))
    else papi_error (r.1, some ([] : List Int))

/-- `read` of `core.py`: query the count, `PAPI_read` into a buffer of that
size, and unpack `eventCount` entries on success. -/
def read (st : PapiState) (es : Int) (cyc ins : Nat → Int) :
    Except PapiExc (WrapResult (List Int)) × PapiState :=
  let eventCount := PAPI_num_events st es
  if eventCount < 0 then (papi_error (eventCount, some ([] : List Int)), st)
  else
    let r := PAPI_read st es cyc ins
    if r.1 = 0 then
      (papi_error
         (r.1, some ((List.range eventCount.toNat).map (fun i => r.2.1.getD i 0))),
       r.2.2)
    else (papi_error (r.1, some ([] : List Int)), r.2.2)

/-- `stop` of `core.py`: same shape as `read`, over `PAPI_stop`. -/
def stop (st : PapiState) (es : Int) (cyc ins : Nat → Int) :
    Except PapiExc (WrapResult (List Int)) × PapiState :=
  let eventCount := PAPI_num_events st es
  if eventCount < 0 then (papi_error (eventCount, some ([] : List Int)), st)
  else
    let r := PAPI_stop st es cyc ins
    if r.1 = 0 then
      (papi_error
         (r.1, some ((List.range eventCount.toNat).map (fun i => r.2.1.getD i 0))),
       r.2.2)
    else (papi_error (r.1, some ([] : List Int)), r.2.2)

/-- `event_code_to_name` of `core.py`. -/
def event_code_to_name (eventCode : Int) :
    Except PapiExc (WrapResult String) :=
  let r := PAPI_event_code_to_name eventCode
  if r.1 = 0 then papi_error (r.1, r.2)
  else papi_error (r.1, (none : Option String))

/-- `event_name_to_code` of `core.py`. -/
def event_name_to_code (eventName : String) :
    Except PapiExc (WrapResult Int) :=
  let r := PAPI_event_name_to_code eventName
  if r.1 = 0 then papi_error (r.1, r.2)
  else papi_error (r.1, (none : Option Int))

/-- The `Flips` dataclass of `structs.py` (floats as rationals). -/
structure Flips where
  event_name : String
  real_time : Rat
  proc_time : Rat
  flpins : Int
  mflips : Rat
deriving DecidableEq

/-- The `Flops` dataclass of `structs.py`. -/
structure Flops where
  event_name : String
  real_time : Rat
  proc_time : Rat
  flpops : Int
  mflops : Rat
deriving DecidableEq

/-- The `IPC` dataclass of `structs.py`. -/
structure IPC where
  real_time : Rat
  proc_time : Rat
  ins : Int
  ipc : Rat
deriving DecidableEq

/-- Modelled from the spec: the outcome of one call of the native
convenience counter `PAPI_flips`, which is declared at the boundary but not
implemented in `papi_impl.c` — a status plus the four output parameters.
The call is `PAPI_flips(rtime, ptime, flpins, mflips)`: the Python `event`
argument is not part of this boundary. -/
structure FlipsSample where
  status : Int
  rtime : Rat
  ptime : Rat
  flpins : Int
  mflips : Rat
deriving DecidableEq

/-- Modelled from the spec: the outcome of one call of the native
`PAPI_flops`, likewise missing from `papi_impl.c`. -/
structure FlopsSample where
  status : Int
  rtime : Rat
  ptime : Rat
  flpops : Int
  mflops : Rat
deriving DecidableEq

/-- The `event_name` expression of `flips`: the default preset name for
`event == 0`, otherwise the wrapped (hence possibly raising)
`event_code_to_name` call.  A bare-status result would be used verbatim by
the dynamically-typed Python; it is rendered here by its numeral (the
branch is unreachable: a zero-status conversion always carries a name). -/
def flipsEventName (event : Int) : Except PapiExc String :=
  if event = 0 then Except.ok "PAPI_FP_INS"
  else
    match event_code_to_name event with
    | Except.error e => Except.error e
    | Except.ok (WrapResult.value s) => Except.ok s
    | Except.ok (WrapResult.code c) => Except.ok (toString c)

/-- The `event_name` expression of `flops`. -/
def flopsEventName (event : Int) : Except PapiExc String :=
  if event = 0 then Except.ok "PAPI_FP_OPS"
  else
    match event_code_to_name event with
    | Except.error e => Except.error e
    | Except.ok (WrapResult.value s) => Except.ok s
    | Except.ok (WrapResult.code c) => Except.ok (toString c)

/-- `flips` of `core.py`: the native call receives no event argument; the
`event` parameter only selects the reported `event_name` (computed, on the
success path, while building the record). -/
def flips (event : Int) (m : FlipsSample) :
    Except PapiExc (WrapResult Flips) :=
  if m.status = 0 then
    match flipsEventName event with
    | Except.error e => Except.error e
    | Except.ok nm =>
      papi_error
        (m.status,
         some { event_name := nm, real_time := m.rtime, proc_time := m.ptime,
                flpins := m.flpins, mflips := m.mflips })
  else papi_error (m.status, (none : Option Flips))

/-- `flops` of `core.py`. -/
def flops (event : Int) (m : FlopsSample) :
    Except PapiExc (WrapResult Flops) :=
  if m.status = 0 then
    match flopsEventName event with
    | Except.error e => Except.error e
    | Except.ok nm =>
      papi_error
        (m.status,
         some { event_name := nm, real_time := m.rtime, proc_time := m.ptime,
                flpops := m.flpops, mflops := m.mflops })
  else papi_error (m.status, (none : Option Flops))

/-- The time and counter samples taken inside `PAPI_ipc` of `papi_impl.c`:
the monotone-clock and rusage derived times and the cycle/instruction
readings at the two ends of the measurement window are opaque inputs; the
body combines them exactly as the C does. -/
structure IpcEnv where
  rtime : Rat
  ptime : Rat
  startCycles : Int
  endCycles : Int
  startIns : Int
  endIns : Int
deriving DecidableEq

/-- `PAPI_ipc` of `papi_impl.c`: `(status, rtime, ptime, ins, ipc)` with
`ipc = (cycles > 0) ? ins / cycles : 0.0`. -/
def PAPI_ipc (env : IpcEnv) : Int × Rat × Rat × Int × Rat :=
  let ins := env.endIns - env.startIns
  let cycles := env.endCycles - env.startCycles
  (PAPI_OK, env.rtime, env.ptime, ins,
   if 0 < cycles then (ins : Rat) / (cycles : Rat) else 0)

/-- `ipc` of `core.py`. -/
def ipc (env : IpcEnv) : Except PapiExc (WrapResult IPC) :=
  let r := PAPI_ipc env
  if r.1 = 0 then
    papi_error
      (r.1,
       some { real_time := r.2.1, proc_time := r.2.2.1,
              ins := r.2.2.2.1, ipc := r.2.2.2.2 })
  else papi_error (r.1, (none : Option IPC))

/-- The per-claim driver for insertion order: successive `add_event` calls,
reporting whether every call returned without raising. -/
def addAll (st : PapiState) (es : Int) (codes : List Int) :
    PapiState × Bool :=
  match codes with
  | [] => (st, true)
  | c :: rest =>
    match add_event st es c with
    | (Except.ok _, st2) => addAll st2 es rest
    | (Except.error _, st2) => (st2, false)

theorem papi_error_neg {α : Type} (c : Int) (res : Option α) (h : c < 0) :
    papi_error (c, res) = Except.error (mkError c) := by
  simp [papi_error, h]

theorem papi_error_nonneg_none {α : Type} (c : Int) (h : 0 ≤ c) :
    papi_error (c, (none : Option α)) = Except.ok (WrapResult.code c) := by
  simp [papi_error, not_lt.mpr h]

theorem papi_error_nonneg_some {α : Type} (c : Int) (v : α) (h : 0 ≤ c) :
    papi_error (c, some v) = Except.ok (WrapResult.value v) := by
  simp [papi_error, not_lt.mpr h]

theorem PAPI_strerror_getD_ne_empty (c : Int) :
    (PAPI_strerror c).getD "" ≠ "" := by
  simp only [PAPI_strerror, Option.getD_some]
  split_ifs <;> try decide
  intro h
  have h2 := congrArg String.length h
  rw [String.length_append] at h2
  simp at h2
  exact absurd h2.1 (by decide)

/-- C1: every wrapped core operation routes its raw `(rcode, result)` pair
through `papi_error`; a negative native status raises exactly the error
kind `ERROR_MAP` assigns to the code (listed exhaustively for all 26
entries), the raised error carrying the original numeric code, and a
non-negative status never raises. -/
theorem papiError_classifies (α : Type) (rcode : Int) (res : Option α) :
    (rcode < 0 →
      papi_error (rcode, res) = Except.error (mkError rcode)
        ∧ (mkError rcode).code = rcode
        ∧ (mkError rcode).kind = errorKind rcode)
    ∧ (0 ≤ rcode → ∃ v, papi_error (rcode, res) = Except.ok v)
    ∧ (errorKind PAPI_EINVAL = PapiKind.invalidValue
        ∧ errorKind PAPI_ENOMEM = PapiKind.noMemory
        ∧ errorKind PAPI_ESYS = PapiKind.systemError
        ∧ errorKind PAPI_ECMP = PapiKind.componentError
        ∧ errorKind PAPI_ECLOST = PapiKind.countersLost
        ∧ errorKind PAPI_EBUG = PapiKind.internalBug
        ∧ errorKind PAPI_ENOEVNT = PapiKind.noSuchEvent
        ∧ errorKind PAPI_ECNFLCT = PapiKind.resourceConflict
        ∧ errorKind PAPI_ENOTRUN = PapiKind.notRunning
        ∧ errorKind PAPI_EISRUN = PapiKind.alreadyRunning
        ∧ errorKind PAPI_ENOEVST = PapiKind.noSuchEventSet
        ∧ errorKind PAPI_ENOTPRESET = PapiKind.notAPreset
        ∧ errorKind PAPI_ENOCNTR = PapiKind.noCounterHardware
        ∧ errorKind PAPI_EMISC = PapiKind.miscellaneous
        ∧ errorKind PAPI_EPERM = PapiKind.permissionDenied
        ∧ errorKind PAPI_ENOINIT = PapiKind.notInitialized
        ∧ errorKind PAPI_ENOCMP = PapiKind.noSuchComponent
        ∧ errorKind PAPI_ENOSUPP = PapiKind.notSupported
        ∧ errorKind PAPI_ENOIMPL = PapiKind.notImplemented
        ∧ errorKind PAPI_EBUF = PapiKind.bufferTooSmall
        ∧ errorKind PAPI_EINVAL_DOM = PapiKind.invalidDomain
        ∧ errorKind PAPI_EATTR = PapiKind.invalidAttribute
        ∧ errorKind PAPI_ECOUNT = PapiKind.tooManyItems
        ∧ errorKind PAPI_ECOMBO = PapiKind.invalidCombination
        ∧ errorKind PAPI_ECMP_DISABLED = PapiKind.componentDisabled
        ∧ errorKind PAPI_EDELAY_INIT = PapiKind.delayedInitFailure) := by
  refine ⟨fun h => ⟨papi_error_neg rcode res h, rfl, rfl⟩, fun h => ?_, by decide⟩
  cases res with
  | some v => exact ⟨WrapResult.value v, papi_error_nonneg_some rcode v h⟩
  | none => exact ⟨WrapResult.code rcode, papi_error_nonneg_none rcode h⟩

/-- Witness for C1 at the concrete status `PAPI_ENOTRUN`. -/
theorem papiError_classifies_witness :
    PAPI_ENOTRUN < 0
    ∧ papi_error (α := Unit) (PAPI_ENOTRUN, none) = Except.error (mkError PAPI_ENOTRUN)
    ∧ (mkError PAPI_ENOTRUN).code = PAPI_ENOTRUN
    ∧ (mkError PAPI_ENOTRUN).kind = errorKind PAPI_ENOTRUN :=
  ⟨by decide, (papiError_classifies Unit PAPI_ENOTRUN none).1 (by decide)⟩

/-- C2: a negative status outside the 26-entry map raises the generic base
kind carrying the raw code; constructing the error message always succeeds
(the native strerror never returns `NULL`) and the message is non-empty. -/
theorem papiError_unknown_code (α : Type) (rcode : Int) (res : Option α)
    (hneg : rcode < 0) (hun : ERROR_MAP.lookup rcode = none) :
    papi_error (rcode, res) = Except.error (mkError rcode)
    ∧ (mkError rcode).kind = PapiKind.base
    ∧ (mkError rcode).code = rcode
    ∧ (PAPI_strerror rcode).isSome = true
    ∧ (mkError rcode).message ≠ "" := by
  refine ⟨papi_error_neg rcode res hneg, ?_, rfl, rfl, ?_⟩
  · simp [mkError, errorKind, hun]
  · exact PAPI_strerror_getD_ne_empty rcode

/-- Witness for C2 at the unmapped negative status `-99`. -/
theorem papiError_unknown_code_witness :
    ((-99 : Int) < 0 ∧ ERROR_MAP.lookup (-99) = none)
    ∧ papi_error (α := Unit) (-99, none) = Except.error (mkError (-99))
    ∧ (mkError (-99)).kind = PapiKind.base
    ∧ (mkError (-99)).code = -99
    ∧ (PAPI_strerror (-99)).isSome = true
    ∧ (mkError (-99)).message ≠ "" :=
  ⟨⟨by decide, by decide⟩,
   papiError_unknown_code Unit (-99) none (by decide) (by decide)⟩

/-- C5: when the elapsed-cycle measurement of the `ipc` window is zero or
negative, the call returns a record whose rate is `0.0`; the guarded branch
performs no division. -/
theorem ipc_zero_cycles (env : IpcEnv)
    (h : env.endCycles - env.startCycles ≤ 0) :
    ipc env = Except.ok (WrapResult.value
      { real_time := env.rtime, proc_time := env.ptime,
        ins := env.endIns - env.startIns, ipc := 0 }) := by
  have hn : ¬ (0 < env.endCycles - env.startCycles) := not_lt.mpr h
  simp [ipc, PAPI_ipc, papi_error, PAPI_OK, hn]

/-- Witness for C5 at a window with equal start and end cycle samples. -/
theorem ipc_zero_cycles_witness :
    ((5 : Int) - 5 ≤ 0)
    ∧ ipc { rtime := 1, ptime := 1, startCycles := 5, endCycles := 5,
            startIns := 0, endIns := 9 }
      = Except.ok (WrapResult.value
          { real_time := 1, proc_time := 1, ins := 9 - 0, ipc := 0 }) :=
  ⟨by decide,
   ipc_zero_cycles
     { rtime := 1, ptime := 1, startCycles := 5, endCycles := 5,
       startIns := 0, endIns := 9 } (by decide)⟩

/-- C7: converting a preset code known to the subsystem to its name and the
name back to a code returns the original code. -/
theorem preset_roundtrip (c : Int) (hc : c ∈ presetEvents.map Prod.fst) :
    ∃ n, event_code_to_name c = Except.ok (WrapResult.value n)
      ∧ event_name_to_code n = Except.ok (WrapResult.value c) := by
  simp [presetEvents] at hc
  rcases hc with h | h <;> subst h
  · exact ⟨"PAPI_TOT_CYC", by decide, by decide⟩
  · exact ⟨"PAPI_TOT_INS", by decide, by decide⟩

/-- Witness for C7 at the total-cycles preset. -/
theorem preset_roundtrip_witness :
    PAPI_TOT_CYC ∈ presetEvents.map Prod.fst
    ∧ ∃ n, event_code_to_name PAPI_TOT_CYC = Except.ok (WrapResult.value n)
        ∧ event_name_to_code n = Except.ok (WrapResult.value PAPI_TOT_CYC) :=
  ⟨by decide, preset_roundtrip PAPI_TOT_CYC (by decide)⟩

/-- The codes of the `switch` in the native `PAPI_strerror`: those the
native strerror facility has a specific message for. -/
def strerrorSwitchCodes : List Int :=
  [PAPI_OK, PAPI_EINVAL, PAPI_ENOMEM, PAPI_ESYS, PAPI_ECMP, PAPI_ENOINIT,
   PAPI_ENOEVNT, PAPI_ECNFLCT, PAPI_ENOTRUN, PAPI_EISRUN]

/-- C8: for every code of the error taxonomy `strerror` returns a
non-empty, code-specific (pairwise distinct) message; for every code the
native strerror has no message for, the returned message ends with that
decimal numeral of the code rather than failing. -/
theorem strerror_messages :
    (∀ c ∈ ERROR_MAP.map Prod.fst, strerror c ≠ "")
    ∧ ((ERROR_MAP.map Prod.fst).map strerror).Nodup
    ∧ (∀ c : Int, c ∉ strerrorSwitchCodes →
        strerror c = "Unknown error code: " ++ toString c) := by
  refine ⟨?_, by decide, ?_⟩
  · intro c hc
    fin_cases hc <;> decide
  · intro c hc
    simp [strerrorSwitchCodes] at hc
    obtain ⟨h0, h1, h2, h3, h4, h5, h6, h7, h8, h9⟩ := hc
    simp only [strerror, PAPI_strerror]
    rw [if_neg h0, if_neg h1, if_neg h2, if_neg h3, if_neg h4, if_neg h5,
        if_neg h6, if_neg h7, if_neg h8, if_neg h9]

/-- Witness for C8 at a mapped code and at the unmapped code `-99`. -/
theorem strerror_messages_witness :
    (PAPI_EINVAL ∈ ERROR_MAP.map Prod.fst ∧ strerror PAPI_EINVAL ≠ "")
    ∧ ((-99 : Int) ∉ strerrorSwitchCodes
        ∧ strerror (-99) = "Unknown error code: " ++ toString (-99 : Int)) :=
  ⟨⟨by decide, strerror_messages.1 PAPI_EINVAL (by decide)⟩,
   ⟨by decide, strerror_messages.2.2 (-99) (by decide)⟩⟩

theorem flips_ok_fields (e : Int) (m : FlipsSample) (r : Flips)
    (h : flips e m = Except.ok (WrapResult.value r)) :
    r.real_time = m.rtime ∧ r.proc_time = m.ptime
      ∧ r.flpins = m.flpins ∧ r.mflips = m.mflips := by
  unfold flips at h
  split at h
  case isTrue hs =>
    cases hname : flipsEventName e with
    | error e2 =>
      rw [hname] at h
      exact absurd h (by simp)
    | ok nm =>
      rw [hname, hs] at h
      have h4 : papi_error
          (0, some { event_name := nm, real_time := m.rtime, proc_time := m.ptime,
                     flpins := m.flpins, mflips := m.mflips })
          = Except.ok (WrapResult.value r) := h
      rw [papi_error_nonneg_some _ _ le_rfl] at h4
      injection h4 with h2
      injection h2 with h3
      rw [← h3]
      exact ⟨rfl, rfl, rfl, rfl⟩
  case isFalse hs =>
    rcases lt_or_ge m.status 0 with hlt | hge
    · rw [papi_error_neg _ _ hlt] at h
      exact absurd h (by simp)
    · rw [papi_error_nonneg_none _ hge] at h
      injection h with h2
      exact WrapResult.noConfusion h2

theorem flops_ok_fields (e : Int) (m : FlopsSample) (q : Flops)
    (h : flops e m = Except.ok (WrapResult.value q)) :
    q.real_time = m.rtime ∧ q.proc_time = m.ptime
      ∧ q.flpops = m.flpops ∧ q.mflops = m.mflops := by
  unfold flops at h
  split at h
  case isTrue hs =>
    cases hname : flopsEventName e with
    | error e2 =>
      rw [hname] at h
      exact absurd h (by simp)
    | ok nm =>
      rw [hname, hs] at h
      have h4 : papi_error
          (0, some { event_name := nm, real_time := m.rtime, proc_time := m.ptime,
                     flpops := m.flpops, mflops := m.mflops })
          = Except.ok (WrapResult.value q) := h
      rw [papi_error_nonneg_some _ _ le_rfl] at h4
      injection h4 with h2
      injection h2 with h3
      rw [← h3]
      exact ⟨rfl, rfl, rfl, rfl⟩
  case isFalse hs =>
    rcases lt_or_ge m.status 0 with hlt | hge
    · rw [papi_error_neg _ _ hlt] at h
      exact absurd h (by simp)
    · rw [papi_error_nonneg_none _ hge] at h
      injection h with h2
      exact WrapResult.noConfusion h2

/-- C9: `flips` (and `flops`) never pass the `event` argument to the native
measurement call, so for one and the same native outcome the measured
fields of two successful calls with different `event` arguments coincide;
only the reported `event_name` may differ. -/
theorem flips_flops_event_independent (e1 e2 : Int)
    (mp : FlipsSample) (mq : FlopsSample)
    (r1 r2 : Flips) (q1 q2 : Flops) :
    (flips e1 mp = Except.ok (WrapResult.value r1) →
     flips e2 mp = Except.ok (WrapResult.value r2) →
       r1.real_time = r2.real_time ∧ r1.proc_time = r2.proc_time
         ∧ r1.flpins = r2.flpins ∧ r1.mflips = r2.mflips)
    ∧ (flops e1 mq = Except.ok (WrapResult.value q1) →
       flops e2 mq = Except.ok (WrapResult.value q2) →
         q1.real_time = q2.real_time ∧ q1.proc_time = q2.proc_time
           ∧ q1.flpops = q2.flpops ∧ q1.mflops = q2.mflops) := by
  constructor
  · intro h1 h2
    obtain ⟨a1, b1, c1, d1⟩ := flips_ok_fields e1 mp r1 h1
    obtain ⟨a2, b2, c2, d2⟩ := flips_ok_fields e2 mp r2 h2
    exact ⟨a1.trans a2.symm, b1.trans b2.symm, c1.trans c2.symm, d1.trans d2.symm⟩
  · intro h1 h2
    obtain ⟨a1, b1, c1, d1⟩ := flops_ok_fields e1 mq q1 h1
    obtain ⟨a2, b2, c2, d2⟩ := flops_ok_fields e2 mq q2 h2
    exact ⟨a1.trans a2.symm, b1.trans b2.symm, c1.trans c2.symm, d1.trans d2.symm⟩

/-- Witness for C9: the default event and the total-cycles preset against
one shared native outcome. -/
theorem flips_flops_event_independent_witness :
    flips 0 { status := 0, rtime := 1, ptime := 2, flpins := 10, mflips := 3 }
      = Except.ok (WrapResult.value
          { event_name := "PAPI_FP_INS", real_time := 1, proc_time := 2,
            flpins := 10, mflips := 3 })
    ∧ flips PAPI_TOT_CYC { status := 0, rtime := 1, ptime := 2, flpins := 10, mflips := 3 }
      = Except.ok (WrapResult.value
          { event_name := "PAPI_TOT_CYC", real_time := 1, proc_time := 2,
            flpins := 10, mflips := 3 })
    ∧ flops 0 { status := 0, rtime := 1, ptime := 2, flpops := 10, mflops := 3 }
      = Except.ok (WrapResult.value
          { event_name := "PAPI_FP_OPS", real_time := 1, proc_time := 2,
            flpops := 10, mflops := 3 })
    ∧ flops PAPI_TOT_INS { status := 0, rtime := 1, ptime := 2, flpops := 10, mflops := 3 }
      = Except.ok (WrapResult.value
          { event_name := "PAPI_TOT_INS", real_time := 1, proc_time := 2,
            flpops := 10, mflops := 3 })
    ∧ (1 : Rat) = 1 ∧ (2 : Rat) = 2 ∧ (10 : Int) = 10 ∧ (3 : Rat) = 3 :=
  ⟨by decide, by decide, by decide, by decide,
   (flips_flops_event_independent 0 PAPI_TOT_CYC
      { status := 0, rtime := 1, ptime := 2, flpins := 10, mflips := 3 }
      { status := 0, rtime := 1, ptime := 2, flpops := 10, mflops := 3 }
      { event_name := "PAPI_FP_INS", real_time := 1, proc_time := 2,
        flpins := 10, mflips := 3 }
      { event_name := "PAPI_TOT_CYC", real_time := 1, proc_time := 2,
        flpins := 10, mflips := 3 }
      { event_name := "PAPI_FP_OPS", real_time := 1, proc_time := 2,
        flpops := 10, mflops := 3 }
      { event_name := "PAPI_FP_OPS", real_time := 1, proc_time := 2,
        flpops := 10, mflops := 3 }).1 (by decide) (by decide)⟩

theorem wrap_status_ok (c : Int) (r : WrapResult Unit)
    (h : papi_error (c, (none : Option Unit)) = Except.ok r)
    (hc : c < 0 ∨ c = 0) : r = WrapResult.code 0 := by
  rcases hc with hneg | hzero
  · rw [papi_error_neg _ _ hneg] at h
    exact absurd h (by simp)
  · subst hzero
    rw [papi_error_nonneg_none _ le_rfl] at h
    injection h with h2
    exact h2.symm

theorem PAPI_add_event_status (st : PapiState) (es ev : Int) :
    (PAPI_add_event st es ev).1 < 0 ∨ (PAPI_add_event st es ev).1 = 0 := by
  unfold PAPI_add_event
  split_ifs <;>
    norm_num [PAPI_ENOINIT, PAPI_EINVAL, PAPI_ECNFLCT, PAPI_OK, PAPI_EISRUN,
      PAPI_ENOEVNT]

theorem PAPI_add_events_status (st : PapiState) (es : Int) (codes : List Int) :
    (PAPI_add_events st es codes).1 < 0 ∨ (PAPI_add_events st es codes).1 = 0 := by
  unfold PAPI_add_events
  split_ifs <;>
    norm_num [PAPI_ENOINIT, PAPI_EINVAL, PAPI_ECNFLCT, PAPI_OK, PAPI_EISRUN,
      PAPI_ENOEVNT]

theorem PAPI_remove_event_status (st : PapiState) (es ev : Int) :
    (PAPI_remove_event st es ev).1 < 0 ∨ (PAPI_remove_event st es ev).1 = 0 := by
  unfold PAPI_remove_event
  split_ifs <;>
    norm_num [PAPI_ENOINIT, PAPI_EINVAL, PAPI_ECNFLCT, PAPI_OK, PAPI_EISRUN,
      PAPI_ENOEVNT]

theorem PAPI_remove_events_status (st : PapiState) (es : Int) (codes : List Int) :
    (PAPI_remove_events st es codes).1 < 0
      ∨ (PAPI_remove_events st es codes).1 = 0 := by
  induction codes generalizing st with
  | nil =>
    simp [PAPI_remove_events, PAPI_OK]
  | cons c rest ih =>
    simp only [PAPI_remove_events]
    split_ifs with h
    · exact Or.inl h
    · exact ih (PAPI_remove_event st es c).2

theorem PAPI_start_status (st : PapiState) (es : Int) (cyc ins : Nat → Int) :
    (PAPI_start st es cyc ins).1 < 0 ∨ (PAPI_start st es cyc ins).1 = 0 := by
  unfold PAPI_start
  split_ifs <;>
    norm_num [PAPI_ENOINIT, PAPI_EINVAL, PAPI_ECNFLCT, PAPI_OK, PAPI_EISRUN,
      PAPI_ENOEVNT]

theorem PAPI_reset_status (st : PapiState) (es : Int) (cyc ins : Nat → Int) :
    (PAPI_reset st es cyc ins).1 < 0 ∨ (PAPI_reset st es cyc ins).1 = 0 := by
  unfold PAPI_reset
  split_ifs <;>
    norm_num [PAPI_ENOINIT, PAPI_EINVAL, PAPI_ECNFLCT, PAPI_OK, PAPI_EISRUN,
      PAPI_ENOEVNT]

theorem PAPI_cleanup_eventset_status (st : PapiState) (es : Int) :
    (PAPI_cleanup_eventset st es).1 < 0 ∨ (PAPI_cleanup_eventset st es).1 = 0 := by
  unfold PAPI_cleanup_eventset
  split_ifs <;>
    norm_num [PAPI_ENOINIT, PAPI_EINVAL, PAPI_ECNFLCT, PAPI_OK, PAPI_EISRUN,
      PAPI_ENOEVNT]

theorem PAPI_destroy_eventset_status (st : PapiState) (es : Int) :
    (PAPI_destroy_eventset st es).1 < 0 ∨ (PAPI_destroy_eventset st es).1 = 0 := by
  unfold PAPI_destroy_eventset
  split_ifs <;>
    norm_num [PAPI_ENOINIT, PAPI_EINVAL, PAPI_ECNFLCT, PAPI_OK, PAPI_EISRUN,
      PAPI_ENOEVNT]

/-- C10: every status-only operation hands `(rcode, None)` to the shared
wrapper, which substitutes the status code for the missing value; since the
native calls return `0` on success, a successful call returns the integer
`0` to the caller. -/
theorem ok_result_is_status_zero (st : PapiState) (es ev : Int)
    (codes : List Int) (cyc ins : Nat → Int) :
    (∀ r st2, add_event st es ev = (Except.ok r, st2) → r = WrapResult.code 0)
    ∧ (∀ r st2, add_events st es codes = (Except.ok r, st2) → r = WrapResult.code 0)
    ∧ (∀ r st2, remove_event st es ev = (Except.ok r, st2) → r = WrapResult.code 0)
    ∧ (∀ r st2, remove_events st es codes = (Except.ok r, st2) → r = WrapResult.code 0)
    ∧ (∀ r st2, start st es cyc ins = (Except.ok r, st2) → r = WrapResult.code 0)
    ∧ (∀ r st2, reset st es cyc ins = (Except.ok r, st2) → r = WrapResult.code 0)
    ∧ (∀ r st2, cleanup_eventset st es = (Except.ok r, st2) → r = WrapResult.code 0)
    ∧ (∀ r st2, destroy_eventset st es = (Except.ok r, st2) → r = WrapResult.code 0) := by
  refine ⟨?_, ?_, ?_, ?_, ?_, ?_, ?_, ?_⟩ <;> intro r st2 h
  · simp only [add_event, Prod.mk.injEq] at h
    exact wrap_status_ok _ r h.1 (PAPI_add_event_status st es ev)
  · simp only [add_events, Prod.mk.injEq] at h
    exact wrap_status_ok _ r h.1 (PAPI_add_events_status st es codes)
  · simp only [remove_event, Prod.mk.injEq] at h
    exact wrap_status_ok _ r h.1 (PAPI_remove_event_status st es ev)
  · simp only [remove_events, Prod.mk.injEq] at h
    exact wrap_status_ok _ r h.1 (PAPI_remove_events_status st es codes)
  · simp only [start, Prod.mk.injEq] at h
    exact wrap_status_ok _ r h.1 (PAPI_start_status st es cyc ins)
  · simp only [reset, Prod.mk.injEq] at h
    exact wrap_status_ok _ r h.1 (PAPI_reset_status st es cyc ins)
  · simp only [cleanup_eventset, Prod.mk.injEq] at h
    exact wrap_status_ok _ r h.1 (PAPI_cleanup_eventset_status st es)
  · simp only [destroy_eventset, Prod.mk.injEq] at h
    exact wrap_status_ok _ r h.1 (PAPI_destroy_eventset_status st es)

theorem getD_set_self {α : Type} (a d : α) :
    ∀ (l : List α) (i : Nat), i < l.length → (l.set i a).getD i d = a
  | _ :: _, 0, _ => rfl
  | _ :: xs, i + 1, h => getD_set_self a d xs i (Nat.lt_of_succ_lt_succ h)
  | [], _, h => absurd h (by simp)

theorem map_getD_range {α : Type} (d : α) :
    ∀ l : List α, (List.range l.length).map (fun i => l.getD i d) = l
  | [] => rfl
  | x :: xs => by
    rw [List.length_cons, List.range_succ_eq_map, List.map_cons, List.map_map]
    have hcomp : ((fun i => (x :: xs).getD i d) ∘ Nat.succ)
        = fun i => xs.getD i d := rfl
    rw [hcomp, map_getD_range d xs]
    rfl

theorem PAPI_num_events_nonneg (st : PapiState) (es : Int)
    (h : 0 ≤ PAPI_num_events st es) :
    st.initialized = true
    ∧ ¬(es ≤ 0 ∨ (MAX_EVENT_SETS : Int) ≤ es)
    ∧ (getSet st es).id ≠ 0
    ∧ PAPI_num_events st es = ((getSet st es).events.length : Int) := by
  unfold PAPI_num_events at h ⊢
  split_ifs at h ⊢ with h1 h2 h3
  · exact absurd h (by norm_num [PAPI_ENOINIT])
  · exact absurd h (by norm_num [PAPI_EINVAL])
  · exact absurd h (by norm_num [PAPI_EINVAL])
  · simp at h1
    exact ⟨h1, h2, h3, rfl⟩

theorem PAPI_num_events_of_valid (st : PapiState) (es : Int)
    (hinit : st.initialized = true)
    (hbounds : ¬(es ≤ 0 ∨ (MAX_EVENT_SETS : Int) ≤ es))
    (hid : (getSet st es).id ≠ 0) :
    PAPI_num_events st es = ((getSet st es).events.length : Int) := by
  unfold PAPI_num_events
  rw [if_neg (by simp [hinit]), if_neg hbounds, if_neg hid]

theorem num_events_of_valid (st : PapiState) (es : Int)
    (hinit : st.initialized = true)
    (hbounds : ¬(es ≤ 0 ∨ (MAX_EVENT_SETS : Int) ≤ es))
    (hid : (getSet st es).id ≠ 0) :
    num_events st es
      = Except.ok (WrapResult.value (((getSet st es).events.length : Int))) := by
  simp only [num_events]
  rw [PAPI_num_events_of_valid st es hinit hbounds hid,
      papi_error_nonneg_some _ _ (Int.natCast_nonneg _)]

theorem list_events_of_valid (st : PapiState) (es : Int)
    (hinit : st.initialized = true)
    (hbounds : ¬(es ≤ 0 ∨ (MAX_EVENT_SETS : Int) ≤ es))
    (hid : (getSet st es).id ≠ 0) :
    list_events st es = Except.ok (WrapResult.value (getSet st es).events) := by
  have hnum := PAPI_num_events_of_valid st es hinit hbounds hid
  have hlist : PAPI_list_events st es (PAPI_num_events st es).toNat
      = (PAPI_OK, (getSet st es).events.take (PAPI_num_events st es).toNat) := by
    unfold PAPI_list_events
    rw [if_neg (by simp [hinit]), if_neg hbounds, if_neg hid]
  simp only [list_events]
  rw [if_neg (by rw [hnum]; exact not_lt.mpr (Int.natCast_nonneg _)), hlist]
  rw [if_pos (by norm_num [PAPI_OK])]
  rw [papi_error_nonneg_some _ _ (by norm_num [PAPI_OK])]
  have htn : (PAPI_num_events st es).toNat = (getSet st es).events.length := by
    rw [hnum]
    exact Int.toNat_natCast _
  rw [htn, List.take_length, map_getD_range]

theorem PAPI_read_not_running (st : PapiState) (es : Int) (cyc ins : Nat → Int)
    (hinit : st.initialized = true)
    (hbounds : ¬(es ≤ 0 ∨ (MAX_EVENT_SETS : Int) ≤ es))
    (hid : (getSet st es).id ≠ 0)
    (hrun : (getSet st es).running = false) :
    PAPI_read st es cyc ins = (PAPI_ENOTRUN, [], st) := by
  unfold PAPI_read
  rw [if_neg (by simp [hinit]), if_neg hbounds, if_neg hid, if_pos hrun]

theorem PAPI_read_running (st : PapiState) (es : Int) (cyc ins : Nat → Int)
    (hinit : st.initialized = true)
    (hbounds : ¬(es ≤ 0 ∨ (MAX_EVENT_SETS : Int) ≤ es))
    (hid : (getSet st es).id ≠ 0)
    (hrun : ¬((getSet st es).running = false)) :
    PAPI_read st es cyc ins
      = (PAPI_OK,
         (List.range (getSet st es).events.length).map
           (fun i => sampleEvent cyc ins i ((getSet st es).events.getD i 0)
             - (getSet st es).start_values.getD i 0),
         st) := by
  unfold PAPI_read
  rw [if_neg (by simp [hinit]), if_neg hbounds, if_neg hid, if_neg hrun]

/-- C6: `read` on a valid event set that is stopped (not running) raises
the NotRunning-classified error carrying `PAPI_ENOTRUN`, returns no
snapshot at all, and leaves the native state untouched. -/
theorem read_stopped_raises_notRunning (st : PapiState) (es : Int)
    (cyc ins : Nat → Int)
    (hinit : st.initialized = true) (hlo : 0 < es)
    (hhi : es < (MAX_EVENT_SETS : Int))
    (hid : (getSet st es).id ≠ 0)
    (hrun : (getSet st es).running = false) :
    (read st es cyc ins).1 = Except.error (mkError PAPI_ENOTRUN)
    ∧ (mkError PAPI_ENOTRUN).kind = PapiKind.notRunning
    ∧ (read st es cyc ins).2 = st := by
  have hbounds : ¬(es ≤ 0 ∨ (MAX_EVENT_SETS : Int) ≤ es) := by
    push_neg
    exact ⟨hlo, hhi⟩
  have hnum := PAPI_num_events_of_valid st es hinit hbounds hid
  have hread := PAPI_read_not_running st es cyc ins hinit hbounds hid hrun
  simp only [read]
  rw [hnum, if_neg (not_lt.mpr (Int.natCast_nonneg _)), hread]
  rw [if_neg (by norm_num [PAPI_ENOTRUN])]
  rw [papi_error_neg _ _ (by norm_num [PAPI_ENOTRUN])]
  exact ⟨rfl, by decide, rfl⟩

/-- A concrete valid, stopped event set at handle 1, for witnesses. -/
def stStopped1 : PapiState :=
  { initialized := true,
    sets := (List.replicate MAX_EVENT_SETS (default : CEventSet)).set 1
      ⟨1, [PAPI_TOT_CYC], [2], false⟩ }

/-- A concrete valid, running event set at handle 1, for witnesses. -/
def stRunning1 : PapiState :=
  { initialized := true,
    sets := (List.replicate MAX_EVENT_SETS (default : CEventSet)).set 1
      ⟨1, [PAPI_TOT_CYC], [2], true⟩ }

/-- A concrete valid, empty, stopped event set at handle 1, for witnesses. -/
def stEmpty1 : PapiState :=
  { initialized := true,
    sets := (List.replicate MAX_EVENT_SETS (default : CEventSet)).set 1
      ⟨1, [], [], false⟩ }

/-- Witness for C6 on a concrete valid, stopped event set. -/
theorem read_stopped_raises_notRunning_witness :
    stStopped1.initialized = true
    ∧ ((read stStopped1 1 (fun _ => 0) (fun _ => 0)).1
        = Except.error (mkError PAPI_ENOTRUN)
      ∧ (mkError PAPI_ENOTRUN).kind = PapiKind.notRunning
      ∧ (read stStopped1 1 (fun _ => 0) (fun _ => 0)).2 = stStopped1) :=
  ⟨by decide,
   read_stopped_raises_notRunning stStopped1 1 (fun _ => 0) (fun _ => 0)
     (by decide) (by decide) (by decide) (by decide) (by decide)⟩

/-- C3: a successful `read` (or `stop`) returns a snapshot whose length
equals the native count-query result for the same handle; `read` leaves the
native state untouched (it neither stops nor resets counting); and when the
native count query is negative both operations raise instead of returning a
partial snapshot. -/
theorem read_stop_snapshot_length (st : PapiState) (es : Int)
    (cyc ins : Nat → Int) :
    (∀ l st2, read st es cyc ins = (Except.ok (WrapResult.value l), st2) →
        (l.length : Int) = PAPI_num_events st es ∧ st2 = st)
    ∧ (∀ l st2, stop st es cyc ins = (Except.ok (WrapResult.value l), st2) →
        (l.length : Int) = PAPI_num_events st es)
    ∧ (PAPI_num_events st es < 0 →
        (read st es cyc ins).1 = Except.error (mkError (PAPI_num_events st es))
        ∧ (stop st es cyc ins).1 = Except.error (mkError (PAPI_num_events st es))) := by
  refine ⟨?_, ?_, ?_⟩
  · intro l st2 h
    by_cases hneg : PAPI_num_events st es < 0
    · simp only [read] at h
      rw [if_pos hneg, papi_error_neg _ _ hneg] at h
      exact absurd (congrArg Prod.fst h) (by simp)
    · have hpos : 0 ≤ PAPI_num_events st es := not_lt.mp hneg
      obtain ⟨hinit, hbounds, hid, hlen⟩ := PAPI_num_events_nonneg st es hpos
      simp only [read] at h
      rw [if_neg hneg] at h
      by_cases hrun : (getSet st es).running = false
      · rw [PAPI_read_not_running st es cyc ins hinit hbounds hid hrun] at h
        rw [if_neg (by norm_num [PAPI_ENOTRUN])] at h
        rw [papi_error_neg _ _ (by norm_num [PAPI_ENOTRUN])] at h
        exact absurd (congrArg Prod.fst h) (by simp)
      · rw [PAPI_read_running st es cyc ins hinit hbounds hid hrun] at h
        rw [if_pos (by norm_num [PAPI_OK])] at h
        rw [papi_error_nonneg_some _ _ (by norm_num [PAPI_OK])] at h
        rw [Prod.mk.injEq] at h
        obtain ⟨hv, hst⟩ := h
        injection hv with hv2
        injection hv2 with hv3
        constructor
        · rw [← hv3, List.length_map, List.length_range]
          exact Int.toNat_of_nonneg hpos
        · exact hst.symm
  · intro l st2 h
    by_cases hneg : PAPI_num_events st es < 0
    · simp only [stop] at h
      rw [if_pos hneg, papi_error_neg _ _ hneg] at h
      exact absurd (congrArg Prod.fst h) (by simp)
    · have hpos : 0 ≤ PAPI_num_events st es := not_lt.mp hneg
      obtain ⟨hinit, hbounds, hid, hlen⟩ := PAPI_num_events_nonneg st es hpos
      simp only [stop, PAPI_stop] at h
      rw [if_neg hneg] at h
      by_cases hrun : (getSet st es).running = false
      · rw [PAPI_read_not_running st es cyc ins hinit hbounds hid hrun] at h
        have h4 : (papi_error (PAPI_ENOTRUN, some ([] : List Int)), st)
            = (Except.ok (WrapResult.value l), st2) := h
        rw [papi_error_neg _ _ (by norm_num [PAPI_ENOTRUN])] at h4
        exact absurd (congrArg Prod.fst h4) (by simp)
      · rw [PAPI_read_running st es cyc ins hinit hbounds hid hrun] at h
        have h4 : (papi_error
            (PAPI_OK, some ((List.range (PAPI_num_events st es).toNat).map
              (fun i =>
                ((List.range (getSet st es).events.length).map
                  (fun j => sampleEvent cyc ins j ((getSet st es).events.getD j 0)
                    - (getSet st es).start_values.getD j 0)).getD i 0))),
            setSet st es { getSet st es with running := false })
            = (Except.ok (WrapResult.value l), st2) := h
        rw [papi_error_nonneg_some _ _ (by norm_num [PAPI_OK])] at h4
        rw [Prod.mk.injEq] at h4
        obtain ⟨hv, hst⟩ := h4
        injection hv with hv2
        injection hv2 with hv3
        rw [← hv3, List.length_map, List.length_range]
        exact Int.toNat_of_nonneg hpos
  · intro hneg
    constructor
    · simp only [read]
      rw [if_pos hneg, papi_error_neg _ _ hneg]
    · simp only [stop]
      rw [if_pos hneg, papi_error_neg _ _ hneg]

/-- Witness for C3 on a concrete running event set with one member. -/
theorem read_stop_snapshot_length_witness :
    read stRunning1 1 (fun _ => 7) (fun _ => 3)
      = (Except.ok (WrapResult.value [(5 : Int)]), stRunning1)
    ∧ (([(5 : Int)].length : Int) = PAPI_num_events stRunning1 1
        ∧ stRunning1 = stRunning1) :=
  ⟨by decide,
   (read_stop_snapshot_length stRunning1 1 (fun _ => 7) (fun _ => 3)).1
     [(5 : Int)] stRunning1 (by decide)⟩

theorem addAll_events (es : Int) :
    ∀ (cs : List Int) (st st1 : PapiState),
      st.sets.length = MAX_EVENT_SETS →
      st.initialized = true →
      0 < es → es < (MAX_EVENT_SETS : Int) →
      (getSet st es).id ≠ 0 →
      addAll st es cs = (st1, true) →
      st1.sets.length = MAX_EVENT_SETS ∧ st1.initialized = true
        ∧ (getSet st1 es).id = (getSet st es).id
        ∧ (getSet st1 es).events = (getSet st es).events ++ cs := by
  intro cs
  induction cs with
  | nil =>
    intro st st1 hsl hinit _ _ _ h
    simp only [addAll] at h
    rw [Prod.mk.injEq] at h
    obtain ⟨h1, _⟩ := h
    subst h1
    exact ⟨hsl, hinit, rfl, by simp⟩
  | cons c rest ih =>
    intro st st1 hsl hinit hlo hhi hid h
    have hbounds : ¬(es ≤ 0 ∨ (MAX_EVENT_SETS : Int) ≤ es) := by
      push_neg
      exact ⟨hlo, hhi⟩
    have hesn : es.toNat < st.sets.length := by
      rw [hsl]
      omega
    simp only [addAll, add_event] at h
    by_cases hcap : MAX_EVENTS ≤ (getSet st es).events.length
    · have hadd : PAPI_add_event st es c = (PAPI_ECNFLCT, st) := by
        unfold PAPI_add_event
        rw [if_neg (by simp [hinit]), if_neg hbounds, if_neg hid, if_pos hcap]
      rw [hadd] at h
      have h4 : ((st, false) : PapiState × Bool) = (st1, true) := h
      rw [Prod.mk.injEq] at h4
      exact absurd h4.2 (by decide)
    · have hadd : PAPI_add_event st es c
          = (PAPI_OK, setSet st es
              { getSet st es with events := (getSet st es).events ++ [c] }) := by
        unfold PAPI_add_event
        rw [if_neg (by simp [hinit]), if_neg hbounds, if_neg hid, if_neg hcap]
      rw [hadd] at h
      have h4 : addAll (setSet st es
          { getSet st es with events := (getSet st es).events ++ [c] }) es rest
          = (st1, true) := h
      have hget : getSet (setSet st es
            { getSet st es with events := (getSet st es).events ++ [c] }) es
          = { getSet st es with events := (getSet st es).events ++ [c] } :=
        getD_set_self _ default st.sets es.toNat hesn
      obtain ⟨g1, g2, g3, g4⟩ := ih
        (setSet st es { getSet st es with events := (getSet st es).events ++ [c] })
        st1
        (by simp [setSet, hsl])
        hinit hlo hhi
        (by rw [hget]; exact hid)
        h4
      refine ⟨g1, g2, ?_, ?_⟩
      · rw [g3, hget]
      · rw [g4, hget]
        simp

/-- C4: whenever `list_events` succeeds, its result has exactly the length
`num_events` reports for the same handle and equals the member list; and
the members accumulated by a sequence of successful `add_event` calls on a
valid empty set are listed back in insertion order. -/
theorem listEvents_numEvents_agree (st : PapiState) (es : Int) :
    (∀ l, list_events st es = Except.ok (WrapResult.value l) →
        ∃ n, num_events st es = Except.ok (WrapResult.value n)
          ∧ (l.length : Int) = n ∧ l = (getSet st es).events)
    ∧ (∀ cs st1,
        st.sets.length = MAX_EVENT_SETS →
        st.initialized = true → 0 < es → es < (MAX_EVENT_SETS : Int) →
        (getSet st es).id ≠ 0 → (getSet st es).events = [] →
        addAll st es cs = (st1, true) →
        list_events st1 es = Except.ok (WrapResult.value cs)) := by
  constructor
  · intro l h
    by_cases hneg : PAPI_num_events st es < 0
    · simp only [list_events] at h
      rw [if_pos hneg, papi_error_neg _ _ hneg] at h
      exact absurd h (by simp)
    · have hpos := not_lt.mp hneg
      obtain ⟨hinit, hbounds, hid, hlen⟩ := PAPI_num_events_nonneg st es hpos
      rw [list_events_of_valid st es hinit hbounds hid] at h
      injection h with h2
      injection h2 with h3
      exact ⟨((getSet st es).events.length : Int),
        num_events_of_valid st es hinit hbounds hid, by rw [← h3], h3.symm⟩
  · intro cs st1 hsl hinit hlo hhi hid hempty hadd
    have hbounds : ¬(es ≤ 0 ∨ (MAX_EVENT_SETS : Int) ≤ es) := by
      push_neg
      exact ⟨hlo, hhi⟩
    obtain ⟨g1, g2, g3, g4⟩ := addAll_events es cs st st1 hsl hinit hlo hhi hid hadd
    have hid1 : (getSet st1 es).id ≠ 0 := by
      rw [g3]
      exact hid
    rw [list_events_of_valid st1 es g2 hbounds hid1, g4, hempty]
    simp

/-- The state after two successful adds on `stEmpty1`, for the C4 witness. -/
def stTwo1 : PapiState :=
  { initialized := true,
    sets := (List.replicate MAX_EVENT_SETS (default : CEventSet)).set 1
      ⟨1, [4, 5], [], false⟩ }

/-- Witness for C4: two adds on a concrete empty set come back in order. -/
theorem listEvents_numEvents_agree_witness :
    addAll stEmpty1 1 [4, 5] = (stTwo1, true)
    ∧ list_events stTwo1 1 = Except.ok (WrapResult.value [4, 5]) :=
  ⟨by decide,
   (listEvents_numEvents_agree stEmpty1 1).2 [4, 5] stTwo1 (by decide) (by decide)
     (by decide) (by decide) (by decide) (by decide) (by decide)⟩

/-- Witness for C10: a successful `add_event` on a concrete valid set
returns the integer status `0`. -/
theorem ok_result_is_status_zero_witness :
    add_event stEmpty1 1 5
      = (Except.ok (WrapResult.code 0), setSet stEmpty1 1 ⟨1, [5], [], false⟩)
    ∧ (WrapResult.code (0 : Int) : WrapResult Unit) = WrapResult.code 0 :=
  ⟨by decide,
   (ok_result_is_status_zero stEmpty1 1 5 [] (fun _ => 0) (fun _ => 0)).1
     (WrapResult.code 0) (setSet stEmpty1 1 ⟨1, [5], [], false⟩) (by decide)⟩

end LowLevelPapi
